import Mathlib

/-!
Verification of the EchoContext-Factory notification hooks.

This file embeds the decision logic of `hooks/factory_notification.py`,
`hooks/notification.py` and `hooks/voice_control.py` as Lean functions and
proves properties of that logic.  Filesystem state, environment variables,
the stdin payload, the outcome of each TTS subprocess, and the two random
draws made per invocation are passed in explicitly as arguments; the value
of a function is the observable outcome of the corresponding Python code
path (scripts invoked, exit code, configuration written).
-/

namespace EchoContextFactory

/-- Python substring test (`needle in haystack`), prefix part:
`isPrefixOfChars p l` decides whether `p` is a leading segment of `l`. -/
def isPrefixOfChars : List Char → List Char → Bool
  | [], _ => true
  | _ :: _, [] => false
  | a :: as, b :: bs => a == b && isPrefixOfChars as bs

/-- Python substring test on character lists: some suffix of the haystack
starts with the needle. -/
def containsSubAux (needle : List Char) : List Char → Bool
  | [] => isPrefixOfChars needle []
  | c :: rest => isPrefixOfChars needle (c :: rest) || containsSubAux needle rest

/-- Python `needle in haystack` on strings. -/
def containsSub (needle hay : String) : Bool :=
  containsSubAux needle.data hay.data

/-- Python `str.lower()`, modelled characterwise. -/
def pyLower (s : String) : String := ⟨s.data.map Char.toLower⟩

/-- Python `str.strip()`: remove leading and trailing whitespace. -/
def pyStrip (s : String) : String :=
  ⟨((s.data.dropWhile Char.isWhitespace).reverse.dropWhile Char.isWhitespace).reverse⟩

/-- Python truthiness of an `os.getenv` result: `None` and `""` are falsy. -/
def truthy : Option String → Bool
  | none => false
  | some s => s != ""

/-- JSON values as produced by `json.load`; numbers are modelled as rationals. -/
inductive JValue where
  | jnull
  | jbool (b : Bool)
  | jnum (q : ℚ)
  | jstr (s : String)
  | jarr (elems : List JValue)
  | jobj (fields : List (String × JValue))

/-- Python truthiness of a decoded JSON value. -/
def jtruthy : JValue → Bool
  | .jnull => false
  | .jbool b => b
  | .jnum q => decide (q ≠ 0)
  | .jstr s => s != ""
  | .jarr elems => !elems.isEmpty
  | .jobj fields => !fields.isEmpty

/-- Python `dict.get` on a decoded JSON object (first binding wins). -/
def alookup : List (String × JValue) → String → Option JValue
  | [], _ => none
  | (k', v') :: rest, k => if k' = k then some v' else alookup rest k

/-- Python `dict[key] = value`: replace the binding in place, else append. -/
def assocSet : List (String × JValue) → String → JValue → List (String × JValue)
  | [], k, v => [(k, v)]
  | (k', v') :: rest, k, v =>
    if k' = k then (k, v) :: rest else (k', v') :: assocSet rest k v

/-- The observable states of the factory configuration file
`~/.claude/config/factory.json`. -/
inductive ConfigFile where
  | missing
  | unreadable
  | malformed
  | parsed (j : JValue)

/-- `is_voice_enabled` from `hooks/factory_notification.py` (lines 236-248); the
function in `hooks/notification.py` (lines 53-65) is identical.  Any exception
(unreadable file, malformed JSON, `.get` on a non-dict) yields the default
`True`; otherwise the Python truthiness of the configured value is returned,
since both call sites only use the result as a condition. -/
def is_voice_enabled (cfg : ConfigFile) : Bool :=
  match cfg with
  | .missing => true
  | .unreadable => true
  | .malformed => true
  | .parsed j =>
    match j with
    | .jobj fields =>
      match alookup fields "voice" with
      | none => true
      | some (.jobj vf) =>
        match alookup vf "factoryNotifications" with
        | none => true
        | some v => jtruthy v
      | some _ => true
    | _ => true

/-- The three TTS backend scripts under `hooks/utils/tts/`. -/
inductive TtsScript where
  | elevenlabs
  | openai
  | pyttsx3
deriving DecidableEq

/-- Which of the three backend script files exist on disk. -/
structure TtsFs where
  elevenlabs : Bool
  openai : Bool
  pyttsx3 : Bool
deriving DecidableEq

/-- `get_tts_script_path` from `hooks/factory_notification.py` (lines 27-53):
single best backend by key presence and script existence, priority
ElevenLabs > OpenAI > pyttsx3.  A present key whose script file is absent
falls through to the next candidate. -/
def get_tts_script_path (elevenLabsKey openAIKey : Option String) (fs : TtsFs) :
    Option TtsScript :=
  if truthy elevenLabsKey && fs.elevenlabs then some .elevenlabs
  else if truthy openAIKey && fs.openai then some .openai
  else if fs.pyttsx3 then some .pyttsx3
  else none

/-- Trigger substrings of phase 1 in `detect_factory_phase`. -/
def phase1_patterns : List String :=
  ["🏁 phase 1", "system verification", "voice greeting", "welcome message"]

/-- Trigger substrings of phase 2 in `detect_factory_phase`. -/
def phase2_patterns : List String :=
  ["🤔 phase 2", "question engine", "project discovery", "interactive interview"]

/-- Trigger substrings of phase 3 in `detect_factory_phase`. -/
def phase3_patterns : List String :=
  ["🧠 phase 3", "context assembly", "automated research", "tech stack analysis"]

/-- Trigger substrings of phase 4 in `detect_factory_phase`. -/
def phase4_patterns : List String :=
  ["📝 phase 4", "generate project files", "claude.md", "prd.md", "tasks.md"]

/-- Trigger substrings of phase 5 in `detect_factory_phase`. -/
def phase5_patterns : List String :=
  ["🎉 phase 5", "voice celebration", "project completion", "final success"]

/-- Does any pattern of the list occur in the (already lower-cased) content? -/
def matchesAny (pats : List String) (contentLower : String) : Bool :=
  pats.any (fun pat => containsSub pat contentLower)

/-- `detect_factory_phase` from `hooks/factory_notification.py` (lines 56-78).
The Python dict of patterns iterates in insertion order 1,2,3,4,5, so the
first phase with a matching pattern wins; the empty string is falsy and
returns `None` up front. -/
def detect_factory_phase (todo_content : String) : Option Nat :=
  if todo_content = "" then none
  else
    let content_lower := pyLower todo_content
    if matchesAny phase1_patterns content_lower then some 1
    else if matchesAny phase2_patterns content_lower then some 2
    else if matchesAny phase3_patterns content_lower then some 3
    else if matchesAny phase4_patterns content_lower then some 4
    else if matchesAny phase5_patterns content_lower then some 5
    else none

/-- `random.choice` modelled by an arbitrary index reduced mod the pool size. -/
def pyChoice (pool : List String) (ix : Nat) : String :=
  pool.getD (ix % pool.length) ""

/-- The five generic completion messages of `get_factory_message`. -/
def completion_messages : List String :=
  ["EchoContext Factory operation complete! Your project is ready for acceleration!",
   "Quantum context assembly successful! Speed enhances understanding - ready to build!",
   "Factory mission accomplished! Your AI amplifier is now supercharged!",
   "Context engineering complete! Time to transform ideas into reality!",
   "Factory optimization finished! Your consciousness catalyst awaits deployment!"]

/-- The five personalized completion messages of `get_factory_message`. -/
def personal_completion_messages (name : String) : List String :=
  ["Amazing work, " ++ name ++ "! Your EchoContext Factory has created the perfect setup!",
   "Brilliant, " ++ name ++ "! Your project context is now optimized for maximum acceleration!",
   "Outstanding, " ++ name ++ "! The factory has generated a comprehensive development blueprint!",
   "Exceptional results, " ++ name ++ "! Your AI collaborator is now fully contextualized!",
   "Perfect execution, " ++ name ++ "! Your Scientific Mediator approach has created excellence!"]

/-- The per-phase generic message pools of `get_factory_message`. -/
def phase_generic_messages : Nat → List String
  | 1 => ["EchoContext Factory activated - preparing quantum setup",
          "Factory systems online - initializing consciousness bridge",
          "Welcome to acceleration mode - factory components verified",
          "Quantum context assembly initiated - all systems operational"]
  | 2 => ["Interview engine online - ready for intelligence gathering",
          "Question framework activated - preparing comprehensive analysis",
          "Project discovery mode engaged - optimizing context collection",
          "Smart interview system ready - initiating knowledge extraction"]
  | 3 => ["Tech stack analysis in progress - optimizing architecture",
          "Context assembly engaged - building comprehensive framework",
          "Pattern matching active - identifying optimal solutions",
          "Technology optimization running - crafting perfect setup"]
  | 4 => ["File generation commencing - creating comprehensive context",
          "Template processing active - building project foundation",
          "Document assembly in progress - generating development blueprint",
          "Context materialization engaged - creating your project framework"]
  | 5 => ["Final optimizations in progress - preparing project completion",
          "Quality assurance active - verifying context completeness",
          "Project finalization engaged - ensuring excellence standards",
          "Completion protocols running - validating factory output"]
  | _ => []

/-- The per-phase personalized message pools of `get_factory_message`. -/
def phase_personal_messages (name : String) : Nat → List String
  | 1 => ["Hey " ++ name ++ ", EchoContext Factory is spinning up for maximum speed!",
          name ++ ", your consciousness catalyst is activating - let\x27s accelerate!",
          "Speed mode engaged, " ++ name ++ " - factory ready for your brilliance!",
          name ++ ", your AI amplifier is online and ready to optimize!"]
  | 2 => [name ++ ", interview mode activated - time to gather your project vision!",
          "Ready for your input, " ++ name ++ " - let\x27s build the perfect context!",
          name ++ ", question engine online - your Scientific Mediator skills needed!",
          "Speed up the discovery, " ++ name ++ " - factory is ready for your requirements!"]
  | 3 => [name ++ ", tech stack optimization in progress - creating your ideal setup!",
          "Analyzing patterns for you, " ++ name ++ " - building the perfect architecture!",
          name ++ ", context assembly engaged - your vision is taking shape!",
          "Speed optimization active, " ++ name ++ " - crafting your development blueprint!"]
  | 4 => [name ++ ", file generation in progress - your comprehensive context is materializing!",
          "Creating your project foundation, " ++ name ++ " - documents are being optimized!",
          name ++ ", context assembly nearly complete - your blueprint is taking form!",
          "Almost there, " ++ name ++ " - generating your perfect development framework!"]
  | 5 => [name ++ ", final touches in progress - your project setup is almost perfect!",
          "Quality checks running, " ++ name ++ " - ensuring your context meets excellence standards!",
          name ++ ", completion protocols active - your factory output is being validated!",
          "Almost finished, " ++ name ++ " - your AI collaborator is being finalized!"]
  | _ => []

/-- `get_factory_message` from `hooks/factory_notification.py` (lines 81-189).
`r` models the single `random.random()` draw taken in the executed branch and
`ix` models the `random.choice` draw; the personalized pool is used when the
name is non-empty (Python truthiness) and `r < 0.7`.  A phase outside the
message dict keys 1..5 yields `None`. -/
def get_factory_message (phase : Nat) (engineer_name : String) (is_completed : Bool)
    (r : ℚ) (ix : Nat) : Option String :=
  if is_completed && phase == 5 then
    if engineer_name != "" && decide (r < 7/10) then
      some (pyChoice (personal_completion_messages engineer_name) ix)
    else
      some (pyChoice completion_messages ix)
  else if phase == 1 || phase == 2 || phase == 3 || phase == 4 || phase == 5 then
    if engineer_name != "" && decide (r < 7/10) then
      some (pyChoice (phase_personal_messages engineer_name phase) ix)
    else
      some (pyChoice (phase_generic_messages phase) ix)
  else none

/-- The broader factory keyword/emoji set of `should_announce_factory_progress`
(lines 208-212). -/
def factory_keywords : List String :=
  ["phase 1", "phase 2", "phase 3", "phase 4", "phase 5",
   "context engineering factory", "project discovery", "automated research",
   "generate project files", "voice celebration", "🏁", "🤔", "🧠", "📝", "🎉"]

/-- The secondary keyword check of the dispatcher, applied to the lower-cased
todo content. -/
def is_factory_todo (content_lower : String) : Bool :=
  factory_keywords.any (fun keyword => containsSub keyword content_lower)

/-- A todo item as read from the event payload: `todo.get` defaults make both
fields total strings. -/
structure TodoItem where
  content : String
  status : String

/-- The `for todo in todos` loop of `should_announce_factory_progress`
(lines 214-233): items whose status/phase combination does not announce are
skipped and the scan continues with the rest of the list. -/
def should_announce_loop : List TodoItem → Bool × Option Nat × Option Bool
  | [] => (false, none, none)
  | todo :: rest =>
    let content := pyLower todo.content
    if is_factory_todo content then
      match detect_factory_phase content with
      | some phase =>
        if todo.status == "completed" && phase == 5 then (true, some phase, some true)
        else if todo.status == "in_progress" && decide (phase < 5) then
          (true, some phase, some false)
        else should_announce_loop rest
      | none => should_announce_loop rest
    else should_announce_loop rest

/-- `should_announce_factory_progress` from `hooks/factory_notification.py`
(lines 192-233), after the JSON field extraction: the triple is
(announce?, detected phase, is-completed as passed on). -/
def should_announce_factory_progress (tool_name : String) (todos : List TodoItem) :
    Bool × Option Nat × Option Bool :=
  if tool_name != "TodoWrite" then (false, none, none)
  else if todos.isEmpty then (false, none, none)
  else should_announce_loop todos

/-- The fallback list built in `announce_factory_progress` (lines 284-301):
every backend whose script file exists, in fixed order ElevenLabs, OpenAI,
pyttsx3, with no key check. -/
def fallback_scripts (fs : TtsFs) : List TtsScript :=
  (if fs.elevenlabs then [.elevenlabs] else []) ++
  (if fs.openai then [.openai] else []) ++
  (if fs.pyttsx3 then [.pyttsx3] else [])

/-- The retry loop of `announce_factory_progress` (lines 303-315): the scripts
actually invoked, in order; a success stops the loop, a failure advances. -/
def cascadeAttempts (runOk : TtsScript → Bool) : List TtsScript → List TtsScript
  | [] => []
  | s :: rest => if runOk s then [s] else s :: cascadeAttempts runOk rest

/-- `announce_factory_progress` from `hooks/factory_notification.py`
(lines 251-325), with the scripts invoked as the observable outcome.
`stdinInput = none` models stdin that is not valid JSON (silently dropped);
otherwise the pair carries the extracted `tool_name` and todo list.  The
guards follow the source order: voice check, stdin parse, announce decision
(`not should_announce or not phase`, where `0` is also falsy), the
key-sensitive `get_tts_script_path` gate, message generation (an empty or
`None` message is falsy), then the cascade. -/
def announce_factory_progress_attempts (cfg : ConfigFile)
    (stdinInput : Option (String × List TodoItem))
    (elevenLabsKey openAIKey : Option String) (engineerNameEnv : String)
    (fs : TtsFs) (runOk : TtsScript → Bool) (r : ℚ) (ix : Nat) : List TtsScript :=
  if !(is_voice_enabled cfg) then []
  else
    match stdinInput with
    | none => []
    | some (tool_name, todos) =>
      match should_announce_factory_progress tool_name todos with
      | (_, none, _) => []
      | (should, some phase, oic) =>
        if !should || phase == 0 then []
        else
          match get_tts_script_path elevenLabsKey openAIKey fs with
          | none => []
          | some _ =>
            match get_factory_message phase (pyStrip engineerNameEnv) (oic == some true) r ix with
            | none => []
            | some message =>
              if message == "" then []
              else cascadeAttempts runOk (fallback_scripts fs)

/-- The four CLI modes of `hooks/voice_control.py` (`--toggle` is also the
default when no flag is given). -/
inductive VCMode where
  | enable
  | disable
  | toggle
  | status

/-- Observable outcome of one run of the voice-control utility: process exit
code, the configuration written back (if a save happened), and whether an
error diagnostic was printed. -/
structure VCOutcome where
  exitCode : Nat
  saved : Option JValue
  printedError : Bool

/-- `load_factory_config` from `hooks/voice_control.py` (lines 19-38): a
missing file, unreadable file, or JSON decode error prints a diagnostic and
raises `SystemExit(1)`; the error case carries no data. -/
def load_factory_config : ConfigFile → Except Unit JValue
  | .missing => .error ()
  | .unreadable => .error ()
  | .malformed => .error ()
  | .parsed j => .ok j

/-- The `voice` object written by `set_voice_state` (lines 60-67). -/
def voice_settings (new_state : Bool) : JValue :=
  .jobj [("factoryNotifications", .jbool new_state),
         ("phaseAnnouncements", .jbool new_state),
         ("progressUpdates", .jbool new_state),
         ("completionCelebration", .jbool new_state),
         ("personalizedMessages", .jbool new_state),
         ("nameUsageRate", .jnum (if new_state then 7/10 else 0))]

/-- `set_voice_state` from `hooks/voice_control.py` (lines 54-99).  A load
failure exits 1 from `load_factory_config`; assigning `config["voice"]` on a
non-dict raises, which the `main` handler turns into exit 1; a save failure
exits 1 from `save_factory_config`; otherwise the updated config is written
and the process later exits 0. -/
def set_voice_state (new_state : Bool) (cfg : ConfigFile) (saveOk : Bool) : VCOutcome :=
  match load_factory_config cfg with
  | .error _ => ⟨1, none, true⟩
  | .ok (.jobj fields) =>
    let updated := JValue.jobj (assocSet fields "voice" (voice_settings new_state))
    if saveOk then ⟨0, some updated, false⟩ else ⟨1, none, true⟩
  | .ok _ => ⟨1, none, true⟩

/-- `toggle_voice_state` from `hooks/voice_control.py` (lines 101-119): read
the current `factoryNotifications` value (default `True`), negate its Python
truthiness, then delegate to `set_voice_state`, which reloads the same file.
A `.get` on a non-dict raises and `main` exits 1. -/
def toggle_voice_state (cfg : ConfigFile) (saveOk : Bool) : VCOutcome :=
  match load_factory_config cfg with
  | .error _ => ⟨1, none, true⟩
  | .ok (.jobj fields) =>
    match alookup fields "voice" with
    | none => set_voice_state false cfg saveOk
    | some (.jobj vf) =>
      match alookup vf "factoryNotifications" with
      | none => set_voice_state false cfg saveOk
      | some v => set_voice_state (!(jtruthy v)) cfg saveOk
    | some _ => ⟨1, none, true⟩
  | .ok _ => ⟨1, none, true⟩

/-- `get_voice_status` from `hooks/voice_control.py` (lines 122-140): the
`except SystemExit: pass` swallows the exit raised by `load_factory_config`,
so a load failure prints its diagnostic but the process then ends with exit
code 0.  A `.get` on a non-dict raises `AttributeError`, which is not caught
there and makes `main` exit 1. -/
def get_voice_status (cfg : ConfigFile) : VCOutcome :=
  match load_factory_config cfg with
  | .error _ => ⟨0, none, true⟩
  | .ok (.jobj fields) =>
    match alookup fields "voice" with
    | none => ⟨0, none, false⟩
    | some (.jobj _) => ⟨0, none, false⟩
    | some _ => ⟨1, none, true⟩
  | .ok _ => ⟨1, none, true⟩

/-- `main` of `hooks/voice_control.py` (lines 143-172), one mode per run. -/
def run_voice_control (mode : VCMode) (cfg : ConfigFile) (saveOk : Bool) : VCOutcome :=
  match mode with
  | .enable => set_voice_state true cfg saveOk
  | .disable => set_voice_state false cfg saveOk
  | .toggle => toggle_voice_state cfg saveOk
  | .status => get_voice_status cfg

/-- Projection used to state the persisted-invariant claims: the named field
of the `voice` object of a written configuration. -/
def voice_field (j : JValue) (field : String) : Option JValue :=
  match j with
  | .jobj fields =>
    match alookup fields "voice" with
    | some (.jobj vf) => alookup vf field
    | _ => none
  | _ => none

theorem isPrefixOfChars_iff (p l : List Char) : isPrefixOfChars p l = true ↔ p <+: l := by
  induction p generalizing l with
  | nil => exact iff_of_true rfl ⟨l, rfl⟩
  | cons a as ih =>
    cases l with
    | nil => simp [isPrefixOfChars]
    | cons b bs => simp [isPrefixOfChars, List.cons_prefix_cons, ih]

theorem containsSubAux_iff (n l : List Char) : containsSubAux n l = true ↔ n <:+: l := by
  induction l with
  | nil => simp [containsSubAux, isPrefixOfChars_iff, List.infix_nil, List.prefix_nil]
  | cons c rest ih =>
    rw [containsSubAux, List.infix_cons_iff]
    simp [isPrefixOfChars_iff, ih]

theorem containsSub_iff (n h : String) : containsSub n h = true ↔ n.data <:+: h.data :=
  containsSubAux_iff n.data h.data

theorem containsSub_trans {a b c : String} (h1 : containsSub a b = true)
    (h2 : containsSub b c = true) : containsSub a c = true :=
  (containsSub_iff a c).mpr
    (List.IsInfix.trans ((containsSub_iff a b).mp h1) ((containsSub_iff b c).mp h2))

theorem matchesAny_of_mem {pats : List String} {pat : String} (hmem : pat ∈ pats) {s : String}
    (h : containsSub pat s = true) : matchesAny pats s = true := by
  simp only [matchesAny, List.any_eq_true]
  exact ⟨pat, hmem, h⟩

theorem matchesAny_eq_false {pats : List String} {s : String}
    (h : ∀ pat ∈ pats, containsSub pat s = false) : matchesAny pats s = false := by
  simp only [matchesAny, List.any_eq_false]
  intro pat hmem
  simp [h pat hmem]

/-- Claim C3, counterexample: the text "phase 3" contains the bare substring
"phase 3" and no phase 1 or phase 2 trigger, yet the classifier returns `none`:
the actual phase 3 trigger is the emoji-prefixed marker "🧠 phase 3", not the
bare "phase 3". -/
theorem c3_phase_marker_counterexample :
    containsSub "phase 3" (pyLower "phase 3") = true ∧
    (∀ pat ∈ phase1_patterns, containsSub pat (pyLower "phase 3") = false) ∧
    (∀ pat ∈ phase2_patterns, containsSub pat (pyLower "phase 3") = false) ∧
    detect_factory_phase "phase 3" = none := by decide

/-- Claim C3, amended: the phase markers of the classifier carry their emoji
prefix.  A text whose lower-cased form contains "🏁 phase 1" classifies as
phase 1, and a text containing the phase-k emoji marker while containing no
trigger pattern of any earlier phase classifies as phase k, for k = 2..5. -/
theorem c3_phase_marker_amended (t : String) :
    (containsSub "🏁 phase 1" (pyLower t) = true → detect_factory_phase t = some 1) ∧
    (containsSub "🤔 phase 2" (pyLower t) = true →
      (∀ pat ∈ phase1_patterns, containsSub pat (pyLower t) = false) →
      detect_factory_phase t = some 2) ∧
    (containsSub "🧠 phase 3" (pyLower t) = true →
      (∀ pat ∈ phase1_patterns ++ phase2_patterns, containsSub pat (pyLower t) = false) →
      detect_factory_phase t = some 3) ∧
    (containsSub "📝 phase 4" (pyLower t) = true →
      (∀ pat ∈ phase1_patterns ++ phase2_patterns ++ phase3_patterns,
        containsSub pat (pyLower t) = false) →
      detect_factory_phase t = some 4) ∧
    (containsSub "🎉 phase 5" (pyLower t) = true →
      (∀ pat ∈ phase1_patterns ++ phase2_patterns ++ phase3_patterns ++ phase4_patterns,
        containsSub pat (pyLower t) = false) →
      detect_factory_phase t = some 5) := by
  by_cases ht : t = ""
  · subst ht
    refine ⟨?_, ?_, ?_, ?_, ?_⟩ <;> · intro h; revert h; decide
  · refine ⟨?_, ?_, ?_, ?_, ?_⟩
    · intro h1
      rw [detect_factory_phase, if_neg ht]
      simp only [matchesAny_of_mem (show "🏁 phase 1" ∈ phase1_patterns by decide) h1, if_true]
    · intro h2 hno
      rw [detect_factory_phase, if_neg ht]
      simp only [matchesAny_eq_false hno,
        matchesAny_of_mem (show "🤔 phase 2" ∈ phase2_patterns by decide) h2,
        Bool.false_eq_true, if_false, if_true]
    · intro h3 hno
      simp only [List.mem_append] at hno
      rw [detect_factory_phase, if_neg ht]
      simp only [matchesAny_eq_false (fun pat hp => hno pat (Or.inl hp)),
        matchesAny_eq_false (fun pat hp => hno pat (Or.inr hp)),
        matchesAny_of_mem (show "🧠 phase 3" ∈ phase3_patterns by decide) h3,
        Bool.false_eq_true, if_false, if_true]
    · intro h4 hno
      simp only [List.mem_append] at hno
      rw [detect_factory_phase, if_neg ht]
      simp only [matchesAny_eq_false (fun pat hp => hno pat (Or.inl (Or.inl hp))),
        matchesAny_eq_false (fun pat hp => hno pat (Or.inl (Or.inr hp))),
        matchesAny_eq_false (fun pat hp => hno pat (Or.inr hp)),
        matchesAny_of_mem (show "📝 phase 4" ∈ phase4_patterns by decide) h4,
        Bool.false_eq_true, if_false, if_true]
    · intro h5 hno
      simp only [List.mem_append] at hno
      rw [detect_factory_phase, if_neg ht]
      simp only [matchesAny_eq_false (fun pat hp => hno pat (Or.inl (Or.inl (Or.inl hp)))),
        matchesAny_eq_false (fun pat hp => hno pat (Or.inl (Or.inl (Or.inr hp)))),
        matchesAny_eq_false (fun pat hp => hno pat (Or.inl (Or.inr hp))),
        matchesAny_eq_false (fun pat hp => hno pat (Or.inr hp)),
        matchesAny_of_mem (show "🎉 phase 5" ∈ phase5_patterns by decide) h5,
        Bool.false_eq_true, if_false, if_true]

/-- Claim C3, witness: the amended statement applied to a concrete text
containing the phase 3 emoji marker. -/
theorem c3_phase_marker_witness : detect_factory_phase "🧠 phase 3 demo" = some 3 :=
  (c3_phase_marker_amended "🧠 phase 3 demo").2.2.1 (by decide) (by decide)

theorem is_factory_of_keyword (kw s : String) (hmem : kw ∈ factory_keywords)
    (h : containsSub kw s = true) : is_factory_todo s = true := by
  simp only [is_factory_todo, List.any_eq_true]
  exact ⟨kw, hmem, h⟩

/-- Claim C6, counterexample: the content "system verification" is classified
as phase 1 by the classifier, but its lower-cased form contains no keyword of
the broader factory keyword/emoji set, so the secondary check is not redundant
with the phase classifier. -/
theorem c6_keyword_redundancy_counterexample :
    detect_factory_phase "system verification" = some 1 ∧
    is_factory_todo (pyLower "system verification") = false := by decide

/-- Claim C6, amended: the redundancy holds only for the emoji marker
patterns: every string that contains one of the five emoji phase markers also
contains a keyword of the broader factory set, hence passes the secondary
check of the dispatcher. -/
theorem c6_keyword_redundancy_amended (s marker : String)
    (hm : marker ∈ ["🏁 phase 1", "🤔 phase 2", "🧠 phase 3", "📝 phase 4", "🎉 phase 5"])
    (h : containsSub marker s = true) : is_factory_todo s = true := by
  fin_cases hm
  · exact is_factory_of_keyword "phase 1" s (by decide) (containsSub_trans (by decide) h)
  · exact is_factory_of_keyword "phase 2" s (by decide) (containsSub_trans (by decide) h)
  · exact is_factory_of_keyword "phase 3" s (by decide) (containsSub_trans (by decide) h)
  · exact is_factory_of_keyword "phase 4" s (by decide) (containsSub_trans (by decide) h)
  · exact is_factory_of_keyword "phase 5" s (by decide) (containsSub_trans (by decide) h)

/-- Claim C6, witness: the amended statement applied to a concrete content
containing the phase 5 emoji marker. -/
theorem c6_keyword_redundancy_witness : is_factory_todo "🎉 phase 5 wrap-up" = true :=
  c6_keyword_redundancy_amended "🎉 phase 5 wrap-up" "🎉 phase 5" (by decide) (by decide)

theorem detect_range {s : String} {p : Nat} (h : detect_factory_phase s = some p) :
    p = 1 ∨ p = 2 ∨ p = 3 ∨ p = 4 ∨ p = 5 := by
  simp only [detect_factory_phase] at h
  split_ifs at h <;> simp_all

theorem should_announce_loop_phase {todos : List TodoItem} {b : Bool} {p : Nat}
    {oc : Option Bool} (h : should_announce_loop todos = (b, some p, oc)) :
    ∃ t ∈ todos, detect_factory_phase (pyLower t.content) = some p := by
  induction todos with
  | nil => simp [should_announce_loop] at h
  | cons t rest ih =>
    rw [should_announce_loop] at h
    by_cases hf : is_factory_todo (pyLower t.content) = true
    · rw [if_pos hf] at h
      split at h
      next phase hdet =>
        split_ifs at h
        · simp only [Prod.mk.injEq, Option.some.injEq] at h
          exact ⟨t, List.mem_cons_self t rest, by rw [hdet, h.2.1]⟩
        · simp only [Prod.mk.injEq, Option.some.injEq] at h
          exact ⟨t, List.mem_cons_self t rest, by rw [hdet, h.2.1]⟩
        · obtain ⟨t2, ht2, hd⟩ := ih h
          exact ⟨t2, List.mem_cons_of_mem t ht2, hd⟩
      next hdet =>
        obtain ⟨t2, ht2, hd⟩ := ih h
        exact ⟨t2, List.mem_cons_of_mem t ht2, hd⟩
    · rw [if_neg hf] at h
      obtain ⟨t2, ht2, hd⟩ := ih h
      exact ⟨t2, List.mem_cons_of_mem t ht2, hd⟩

theorem should_announce_phase_range {tool_name : String} {todos : List TodoItem} {b : Bool}
    {p : Nat} {oc : Option Bool}
    (h : should_announce_factory_progress tool_name todos = (b, some p, oc)) :
    p = 1 ∨ p = 2 ∨ p = 3 ∨ p = 4 ∨ p = 5 := by
  rw [should_announce_factory_progress] at h
  split_ifs at h <;> first
    | simp at h
    | · obtain ⟨t, _, hd⟩ := should_announce_loop_phase h
        exact detect_range hd

/-- Claim C4: for a todo list whose single item is factory-relevant with
detected phase p and status s, the dispatcher announces iff p = 5 and s is
"completed", or p is one of 1..4 and s is "in_progress"; every other
combination yields no announcement. -/
theorem c4_status_gating (t : TodoItem) (p : Nat)
    (hf : is_factory_todo (pyLower t.content) = true)
    (hp : detect_factory_phase (pyLower t.content) = some p) :
    (should_announce_factory_progress "TodoWrite" [t]).1 = true ↔
      ((p = 5 ∧ t.status = "completed") ∨
       ((p = 1 ∨ p = 2 ∨ p = 3 ∨ p = 4) ∧ t.status = "in_progress")) := by
  have hrange := detect_range hp
  rcases hrange with rfl | rfl | rfl | rfl | rfl <;>
    by_cases hc : t.status = "completed" <;> by_cases hi : t.status = "in_progress" <;>
      simp_all [should_announce_factory_progress, should_announce_loop]

/-- Claim C4, witness: the gating equivalence at a concrete phase 3 item with
status "in_progress". -/
theorem c4_status_gating_witness :
    (should_announce_factory_progress "TodoWrite" [⟨"🧠 phase 3", "in_progress"⟩]).1 = true ↔
      ((3 = 5 ∧ (TodoItem.mk "🧠 phase 3" "in_progress").status = "completed") ∨
       ((3 = 1 ∨ 3 = 2 ∨ 3 = 3 ∨ 3 = 4) ∧
         (TodoItem.mk "🧠 phase 3" "in_progress").status = "in_progress")) :=
  c4_status_gating ⟨"🧠 phase 3", "in_progress"⟩ 3 (by decide) (by decide)

/-- Claim C5, counterexample: a list whose first factory-relevant item has
detected phase 3 and the non-announcing status "pending" still announces,
because the loop skips that item and a later phase 3 "in_progress" item
matches; alone, the first item yields no announcement. -/
theorem c5_first_item_counterexample :
    is_factory_todo (pyLower "🧠 phase 3 pending work") = true ∧
    detect_factory_phase (pyLower "🧠 phase 3 pending work") = some 3 ∧
    should_announce_factory_progress "TodoWrite"
      [⟨"🧠 phase 3 pending work", "pending"⟩] = (false, none, none) ∧
    should_announce_factory_progress "TodoWrite"
      [⟨"🧠 phase 3 pending work", "pending"⟩, ⟨"🧠 phase 3 active", "in_progress"⟩] =
      (true, some 3, some false) := by decide

/-- Claim C5, amended: the scan is first-match in input order over items whose
status/phase combination announces; a factory-relevant item with a detected
phase whose combination does not announce is skipped, and the decision for the
rest of the list is unchanged, so later items still determine the outcome. -/
theorem c5_first_item_amended (tool_name : String) (t : TodoItem) (rest : List TodoItem) (p : Nat)
    (hf : is_factory_todo (pyLower t.content) = true)
    (hp : detect_factory_phase (pyLower t.content) = some p)
    (hno1 : ¬(t.status = "completed" ∧ p = 5))
    (hno2 : ¬(t.status = "in_progress" ∧ p < 5)) :
    should_announce_factory_progress tool_name (t :: rest) =
      should_announce_factory_progress tool_name rest := by
  have h1 : ¬((t.status == "completed" && p == 5) = true) := by
    simp only [Bool.and_eq_true, beq_iff_eq]
    exact fun hx => hno1 ⟨hx.1, hx.2⟩
  have h2 : ¬((t.status == "in_progress" && decide (p < 5)) = true) := by
    simp only [Bool.and_eq_true, beq_iff_eq, decide_eq_true_eq]
    exact fun hx => hno2 ⟨hx.1, hx.2⟩
  by_cases htn : tool_name = "TodoWrite"
  · subst htn
    rw [should_announce_factory_progress, should_announce_factory_progress]
    simp only [bne_self_eq_false, Bool.false_eq_true, if_false, List.isEmpty_cons]
    rw [should_announce_loop]
    simp only [hf, if_true, hp, if_neg h1, if_neg h2]
    cases rest with
    | nil => simp [should_announce_loop]
    | cons t2 rest2 => simp
  · have hbne : (tool_name != "TodoWrite") = true := by
      simp [bne_iff_ne, htn]
    rw [should_announce_factory_progress, should_announce_factory_progress, if_pos hbne,
      if_pos hbne]

/-- Claim C5, witness: prepending a concrete non-announcing phase 3 item leaves
the decision of the remaining list unchanged. -/
theorem c5_first_item_witness :
    should_announce_factory_progress "TodoWrite"
      [⟨"🧠 phase 3 pending work", "pending"⟩, ⟨"🧠 phase 3 active", "in_progress"⟩] =
    should_announce_factory_progress "TodoWrite" [⟨"🧠 phase 3 active", "in_progress"⟩] :=
  c5_first_item_amended "TodoWrite" ⟨"🧠 phase 3 pending work", "pending"⟩
    [⟨"🧠 phase 3 active", "in_progress"⟩] 3 (by decide) (by decide) (by decide) (by decide)

theorem str_append_ne_empty (a b : String) (hb : b ≠ "") : a ++ b ≠ "" := by
  intro h
  apply hb
  have hd := congrArg String.data h
  rw [String.data_append] at hd
  exact String.ext (List.append_eq_nil.mp hd).2

theorem pyChoice_mem {pool : List String} (hne : pool ≠ []) (ix : Nat) :
    pyChoice pool ix ∈ pool := by
  have hlt : ix % pool.length < pool.length :=
    Nat.mod_lt ix (List.length_pos.mpr hne)
  rw [pyChoice, List.getD_eq_getElem pool "" hlt]
  exact List.getElem_mem hlt

theorem pyChoice_ne_empty {pool : List String} (hne : pool ≠ [])
    (hall : ∀ m ∈ pool, m ≠ "") (ix : Nat) : pyChoice pool ix ≠ "" :=
  hall _ (pyChoice_mem hne ix)

theorem personal_completion_ne_empty (name : String) :
    ∀ m ∈ personal_completion_messages name, m ≠ "" := by
  intro m hm
  simp only [personal_completion_messages, List.mem_cons, List.not_mem_nil, or_false] at hm
  rcases hm with rfl | rfl | rfl | rfl | rfl <;>
    exact str_append_ne_empty _ _ (by decide)

theorem phase_personal_ne_empty (name : String) (p : Nat) (h1 : 1 ≤ p) (h2 : p ≤ 5) :
    ∀ m ∈ phase_personal_messages name p, m ≠ "" := by
  interval_cases p <;>
  · intro m hm
    simp only [phase_personal_messages, List.mem_cons, List.not_mem_nil, or_false] at hm
    rcases hm with rfl | rfl | rfl | rfl <;>
      exact str_append_ne_empty _ _ (by decide)

theorem phase_generic_nonempty (p : Nat) (h1 : 1 ≤ p) (h2 : p ≤ 5) :
    phase_generic_messages p ≠ [] := by
  interval_cases p <;> simp [phase_generic_messages]

theorem phase_personal_nonempty (name : String) (p : Nat) (h1 : 1 ≤ p) (h2 : p ≤ 5) :
    phase_personal_messages name p ≠ [] := by
  interval_cases p <;> simp [phase_personal_messages]

theorem phase_generic_ne_empty (p : Nat) (h1 : 1 ≤ p) (h2 : p ≤ 5) :
    ∀ m ∈ phase_generic_messages p, m ≠ "" := by
  interval_cases p <;> decide

theorem get_factory_message_total (phase : Nat) (name : String) (c : Bool) (r : ℚ) (ix : Nat)
    (h1 : 1 ≤ phase) (h2 : phase ≤ 5) :
    ∃ m, get_factory_message phase name c r ix = some m ∧ m ≠ "" := by
  rw [get_factory_message]
  by_cases h5 : (c && phase == 5) = true
  · rw [if_pos h5]
    by_cases hper : (name != "" && decide (r < 7/10)) = true
    · rw [if_pos hper]
      exact ⟨_, rfl, pyChoice_ne_empty (by simp [personal_completion_messages])
        (personal_completion_ne_empty name) ix⟩
    · rw [if_neg hper]
      exact ⟨_, rfl, pyChoice_ne_empty (by simp [completion_messages])
        (by decide) ix⟩
  · rw [if_neg h5]
    have hmem : (phase == 1 || phase == 2 || phase == 3 || phase == 4 || phase == 5) = true := by
      simp only [Bool.or_eq_true, beq_iff_eq]
      omega
    rw [if_pos hmem]
    by_cases hper : (name != "" && decide (r < 7/10)) = true
    · rw [if_pos hper]
      exact ⟨_, rfl, pyChoice_ne_empty (phase_personal_nonempty name phase h1 h2)
        (phase_personal_ne_empty name phase h1 h2) ix⟩
    · rw [if_neg hper]
      exact ⟨_, rfl, pyChoice_ne_empty (phase_generic_nonempty phase h1 h2)
        (phase_generic_ne_empty phase h1 h2) ix⟩

/-- Claim C7: for every phase 1..5, name, and completion state, the generator
returns a message from exactly the documented pool of that (phase, completed)
combination: the 5-generic/5-personalized completion pools when completed and
phase = 5, otherwise the 4-generic/4-personalized pools of that phase; the
personalized pool is chosen exactly when the name is non-empty and the uniform
draw r is below 0.7; every phase outside 1..5 yields `none`. -/
theorem c7_message_pools (phase : Nat) (name : String) (completed : Bool) (r : ℚ) (ix : Nat) :
    (1 ≤ phase → phase ≤ 5 →
      ∃ m, get_factory_message phase name completed r ix = some m ∧
        ((completed = true ∧ phase = 5 →
           (name ≠ "" ∧ r < 7/10 → m ∈ personal_completion_messages name) ∧
           (¬(name ≠ "" ∧ r < 7/10) → m ∈ completion_messages)) ∧
         (¬(completed = true ∧ phase = 5) →
           (name ≠ "" ∧ r < 7/10 → m ∈ phase_personal_messages name phase) ∧
           (¬(name ≠ "" ∧ r < 7/10) → m ∈ phase_generic_messages phase)))) ∧
    ((phase = 0 ∨ 6 ≤ phase) → get_factory_message phase name completed r ix = none) := by
  have hbpers : (name != "" && decide (r < 7/10)) = true ↔ (name ≠ "" ∧ r < 7/10) := by
    simp [bne_iff_ne]
  have hb5 : (completed && phase == 5) = true ↔ (completed = true ∧ phase = 5) := by
    simp
  constructor
  · intro h1 h2
    by_cases h5 : completed = true ∧ phase = 5 <;> by_cases hper : name ≠ "" ∧ r < 7/10
    · rw [get_factory_message, if_pos (hb5.mpr h5), if_pos (hbpers.mpr hper)]
      refine ⟨_, rfl, fun _ => ⟨fun _ => ?_, fun hn => absurd hper hn⟩,
        fun hn5 => absurd h5 hn5⟩
      exact pyChoice_mem (by simp [personal_completion_messages]) ix
    · rw [get_factory_message, if_pos (hb5.mpr h5),
        if_neg (fun hx => hper (hbpers.mp hx))]
      refine ⟨_, rfl, fun _ => ⟨fun hx => absurd hx hper, fun _ => ?_⟩,
        fun hn5 => absurd h5 hn5⟩
      exact pyChoice_mem (by simp [completion_messages]) ix
    · have hxm : (phase == 1 || phase == 2 || phase == 3 || phase == 4 || phase == 5) = true := by
        simp only [Bool.or_eq_true, beq_iff_eq]
        omega
      rw [get_factory_message, if_neg (fun hx => h5 (hb5.mp hx)), if_pos hxm,
        if_pos (hbpers.mpr hper)]
      refine ⟨_, rfl, fun hx5 => absurd hx5 h5, fun _ => ⟨fun _ => ?_, fun hn => absurd hper hn⟩⟩
      exact pyChoice_mem (phase_personal_nonempty name phase h1 h2) ix
    · have hxm : (phase == 1 || phase == 2 || phase == 3 || phase == 4 || phase == 5) = true := by
        simp only [Bool.or_eq_true, beq_iff_eq]
        omega
      rw [get_factory_message, if_neg (fun hx => h5 (hb5.mp hx)), if_pos hxm,
        if_neg (fun hx => hper (hbpers.mp hx))]
      refine ⟨_, rfl, fun hx5 => absurd hx5 h5, fun _ => ⟨fun hx => absurd hx hper, fun _ => ?_⟩⟩
      exact pyChoice_mem (phase_generic_nonempty phase h1 h2) ix
  · intro h0
    have hx5 : ¬((completed && phase == 5) = true) := by
      simp only [Bool.and_eq_true, beq_iff_eq]
      rintro ⟨-, h⟩
      omega
    have hxm : ¬((phase == 1 || phase == 2 || phase == 3 || phase == 4 || phase == 5) = true) := by
      simp only [Bool.or_eq_true, beq_iff_eq]
      omega
    rw [get_factory_message, if_neg hx5, if_neg hxm]

/-- Claim C7, witness: at phase 5, empty name, completed, the generator
returns a member of the generic completion pool. -/
theorem c7_message_pools_witness :
    ∃ m, get_factory_message 5 "" true 0 2 = some m ∧ m ∈ completion_messages := by
  obtain ⟨m, hm, hc, -⟩ := (c7_message_pools 5 "" true 0 2).1 (by norm_num) (by norm_num)
  exact ⟨m, hm, (hc ⟨rfl, rfl⟩).2 (fun hx => hx.1 rfl)⟩

theorem get_tts_none_keys (elKey oaKey : Option String) (fs : TtsFs)
    (hel : truthy elKey = false) (hoa : truthy oaKey = false) :
    get_tts_script_path elKey oaKey fs = if fs.pyttsx3 then some .pyttsx3 else none := by
  rw [get_tts_script_path, hel, hoa]
  simp

theorem cascade_head_mem (runOk : TtsScript → Bool) (s : TtsScript) (rest : List TtsScript) :
    s ∈ cascadeAttempts runOk (s :: rest) := by
  rw [cascadeAttempts]
  split <;> simp

/-- Claim C1, counterexample: with no API keys set, voice enabled, and an
announce-worthy todo event, if the ElevenLabs and OpenAI scripts exist but the
pyttsx3 script does not, then no backend at all is attempted: the
key-sensitive `get_tts_script_path` gate returns `None` before the cascade,
refuting the claim that an existing backend is always attempted. -/
theorem c1_fallback_cascade_counterexample :
    is_voice_enabled .missing = true ∧
    should_announce_factory_progress "TodoWrite"
      [⟨"🧠 phase 3 context assembly", "in_progress"⟩] = (true, some 3, some false) ∧
    truthy none = false ∧
    TtsFs.elevenlabs ⟨true, true, false⟩ = true ∧
    fallback_scripts ⟨true, true, false⟩ = [.elevenlabs, .openai] ∧
    announce_factory_progress_attempts .missing
      (some ("TodoWrite", [⟨"🧠 phase 3 context assembly", "in_progress"⟩]))
      none none "" ⟨true, true, false⟩ (fun _ => true) 0 0 = [] := by decide

/-- Claim C1, amended: the cascade candidate list ignores key presence and
holds every backend whose script exists, in fixed order ElevenLabs, OpenAI,
pyttsx3, and the loop stops at the first success; but the cascade is only
reached when the key-sensitive single-backend selector returns a script.  With
no API keys set this requires the pyttsx3 script to exist: then the attempts
are exactly the cascade over the existing scripts and its first candidate is
attempted; without it the hook returns before any attempt. -/
theorem c1_fallback_cascade_amended (cfg : ConfigFile) (tool_name : String) (todos : List TodoItem)
    (p : Nat) (oic : Option Bool) (elKey oaKey : Option String) (nameEnv : String)
    (fs : TtsFs) (runOk : TtsScript → Bool) (r : ℚ) (ix : Nat)
    (hv : is_voice_enabled cfg = true)
    (hs : should_announce_factory_progress tool_name todos = (true, some p, oic))
    (hel : truthy elKey = false) (hoa : truthy oaKey = false) :
    (fs.pyttsx3 = false →
      announce_factory_progress_attempts cfg (some (tool_name, todos)) elKey oaKey nameEnv
        fs runOk r ix = []) ∧
    (fs.pyttsx3 = true →
      announce_factory_progress_attempts cfg (some (tool_name, todos)) elKey oaKey nameEnv
        fs runOk r ix = cascadeAttempts runOk (fallback_scripts fs) ∧
      ∃ s rest, fallback_scripts fs = s :: rest ∧
        s ∈ announce_factory_progress_attempts cfg (some (tool_name, todos)) elKey oaKey
          nameEnv fs runOk r ix) := by
  have hrange := should_announce_phase_range hs
  have hp0 : (p == 0) = false := by
    simp only [beq_eq_false_iff_ne, ne_eq]
    omega
  obtain ⟨m, hm, hmne⟩ := get_factory_message_total p (pyStrip nameEnv) (oic == some true) r ix
    (by omega) (by omega)
  have hmb : (m == "") = false := by
    simp [hmne]
  constructor
  · intro hpy
    simp only [announce_factory_progress_attempts, hv, Bool.not_true, Bool.false_eq_true,
      if_false, hs, hp0, Bool.not_true, Bool.or_false, get_tts_none_keys _ _ _ hel hoa, hpy,
      Bool.false_eq_true, if_false]
  · intro hpy
    have hmain : announce_factory_progress_attempts cfg (some (tool_name, todos)) elKey oaKey
        nameEnv fs runOk r ix = cascadeAttempts runOk (fallback_scripts fs) := by
      simp only [announce_factory_progress_attempts, hv, Bool.not_true, Bool.false_eq_true,
        if_false, hs, hp0, Bool.or_false, get_tts_none_keys _ _ _ hel hoa, hpy, if_true,
        hm, hmb]
    refine ⟨hmain, ?_⟩
    rw [hmain]
    rw [show fallback_scripts fs = (if fs.elevenlabs then [.elevenlabs] else []) ++
      (if fs.openai then [.openai] else []) ++ (if fs.pyttsx3 then [.pyttsx3] else []) from rfl,
      hpy]
    cases hfe : fs.elevenlabs <;> cases hfo : fs.openai <;>
      · simp only [if_true, if_false, List.nil_append, List.cons_append, List.append_nil]
        exact ⟨_, _, rfl, cascade_head_mem ..⟩

theorem alookup_assocSet_self (l : List (String × JValue)) (k : String) (v : JValue) :
    alookup (assocSet l k v) k = some v := by
  induction l with
  | nil => simp [assocSet, alookup]
  | cons kv rest ih =>
    obtain ⟨k2, v2⟩ := kv
    by_cases hk : k2 = k
    · subst hk
      simp [assocSet, alookup]
    · simp [assocSet, hk, alookup, ih]

theorem alookup_assocSet_ne (l : List (String × JValue)) (k kq : String) (v : JValue)
    (hne : kq ≠ k) : alookup (assocSet l k v) kq = alookup l kq := by
  induction l with
  | nil => simp [assocSet, alookup, Ne.symm hne]
  | cons kv rest ih =>
    obtain ⟨k2, v2⟩ := kv
    by_cases hk : k2 = k
    · subst hk
      simp [assocSet, alookup, Ne.symm hne]
    · by_cases hk2 : k2 = kq
      · simp [assocSet, hk, alookup, hk2, hne]
      · simp [assocSet, hk, alookup, hk2, ih]

theorem set_voice_state_saved {b : Bool} {cfg : ConfigFile} {saveOk : Bool} {j : JValue}
    (h : (set_voice_state b cfg saveOk).saved = some j) :
    ∃ fields, cfg = .parsed (.jobj fields) ∧
      j = .jobj (assocSet fields "voice" (voice_settings b)) := by
  cases cfg with
  | missing => simp [set_voice_state, load_factory_config] at h
  | unreadable => simp [set_voice_state, load_factory_config] at h
  | malformed => simp [set_voice_state, load_factory_config] at h
  | parsed jv =>
    cases jv with
    | jobj fields =>
      cases saveOk with
      | true =>
        simp only [set_voice_state, load_factory_config, if_true] at h
        exact ⟨fields, rfl, (Option.some.inj h).symm⟩
      | false => simp [set_voice_state, load_factory_config] at h
    | jnull => simp [set_voice_state, load_factory_config] at h
    | jbool b2 => simp [set_voice_state, load_factory_config] at h
    | jnum q => simp [set_voice_state, load_factory_config] at h
    | jstr s => simp [set_voice_state, load_factory_config] at h
    | jarr es => simp [set_voice_state, load_factory_config] at h

theorem get_voice_status_saved (cfg : ConfigFile) : (get_voice_status cfg).saved = none := by
  rw [get_voice_status]
  split <;> first | rfl | (split <;> rfl)

theorem run_saved_shape {mode : VCMode} {cfg : ConfigFile} {saveOk : Bool} {j : JValue}
    (h : (run_voice_control mode cfg saveOk).saved = some j) :
    ∃ (b : Bool) (fields : List (String × JValue)), cfg = .parsed (.jobj fields) ∧
      j = .jobj (assocSet fields "voice" (voice_settings b)) := by
  cases mode with
  | enable =>
    obtain ⟨f, hc, hj⟩ := set_voice_state_saved h
    exact ⟨true, f, hc, hj⟩
  | disable =>
    obtain ⟨f, hc, hj⟩ := set_voice_state_saved h
    exact ⟨false, f, hc, hj⟩
  | status =>
    rw [run_voice_control, get_voice_status_saved] at h
    exact absurd h (by simp)
  | toggle =>
    rw [run_voice_control, toggle_voice_state] at h
    split at h
    · simp at h
    · split at h
      · obtain ⟨f, hc, hj⟩ := set_voice_state_saved h
        exact ⟨false, f, hc, hj⟩
      · split at h
        · obtain ⟨f, hc, hj⟩ := set_voice_state_saved h
          exact ⟨false, f, hc, hj⟩
        · obtain ⟨f, hc, hj⟩ := set_voice_state_saved h
          exact ⟨_, f, hc, hj⟩
      · simp at h
    · simp at h

/-- Claim C1, witness: with no keys, all three scripts present, and every
backend failing, the amended statement instantiates to a concrete run. -/
theorem c1_fallback_cascade_witness :
    announce_factory_progress_attempts .missing
      (some ("TodoWrite", [⟨"🧠 phase 3 context assembly", "in_progress"⟩]))
      none none "" ⟨true, true, true⟩ (fun _ => false) 0 0 =
      cascadeAttempts (fun _ => false) (fallback_scripts ⟨true, true, true⟩) ∧
    ∃ s rest, fallback_scripts ⟨true, true, true⟩ = s :: rest ∧
      s ∈ announce_factory_progress_attempts .missing
        (some ("TodoWrite", [⟨"🧠 phase 3 context assembly", "in_progress"⟩]))
        none none "" ⟨true, true, true⟩ (fun _ => false) 0 0 :=
  (c1_fallback_cascade_amended .missing "TodoWrite" [⟨"🧠 phase 3 context assembly", "in_progress"⟩]
    3 (some false) none none "" ⟨true, true, true⟩ (fun _ => false) 0 0
    rfl (by decide) rfl rfl).2 rfl

/-- Claim C2, counterexample: in status mode a missing configuration file
prints the load diagnostic, but the `SystemExit` raised by
`load_factory_config` is caught by the `except SystemExit: pass` inside
`get_voice_status`, so the process terminates with exit code 0, not
non-zero. -/
theorem c2_config_error_exit_counterexample :
    (run_voice_control .status .missing true).exitCode = 0 ∧
    (run_voice_control .status .missing true).printedError = true := by decide

/-- Claim C2, amended: a missing, unreadable, or malformed configuration file
makes the enable, disable, and toggle modes terminate with exit code 1 after
printing a diagnostic; the status mode prints the diagnostic but terminates
with exit code 0. -/
theorem c2_config_error_exit_amended (cfg : ConfigFile) (saveOk : Bool)
    (hbad : cfg = .missing ∨ cfg = .unreadable ∨ cfg = .malformed) :
    (run_voice_control .enable cfg saveOk).exitCode = 1 ∧
    (run_voice_control .enable cfg saveOk).printedError = true ∧
    (run_voice_control .disable cfg saveOk).exitCode = 1 ∧
    (run_voice_control .disable cfg saveOk).printedError = true ∧
    (run_voice_control .toggle cfg saveOk).exitCode = 1 ∧
    (run_voice_control .toggle cfg saveOk).printedError = true ∧
    (run_voice_control .status cfg saveOk).exitCode = 0 ∧
    (run_voice_control .status cfg saveOk).printedError = true := by
  rcases hbad with rfl | rfl | rfl <;>
    exact ⟨rfl, rfl, rfl, rfl, rfl, rfl, rfl, rfl⟩

/-- Claim C2, witness: the amended statement at a missing configuration
file. -/
theorem c2_config_error_exit_witness :
    (run_voice_control .enable .missing true).exitCode = 1 ∧
    (run_voice_control .enable .missing true).printedError = true ∧
    (run_voice_control .disable .missing true).exitCode = 1 ∧
    (run_voice_control .disable .missing true).printedError = true ∧
    (run_voice_control .toggle .missing true).exitCode = 1 ∧
    (run_voice_control .toggle .missing true).printedError = true ∧
    (run_voice_control .status .missing true).exitCode = 0 ∧
    (run_voice_control .status .missing true).printedError = true :=
  c2_config_error_exit_amended .missing true (Or.inl rfl)

/-- Claim C8: whenever a run of the voice-control utility saves a
configuration, the persisted voice object has its five boolean flags all equal
to one value b, and nameUsageRate equal to 0.7 when b is true and 0.0 when b
is false. -/
theorem c8_voice_invariant (mode : VCMode) (cfg : ConfigFile) (saveOk : Bool) (j : JValue)
    (h : (run_voice_control mode cfg saveOk).saved = some j) :
    ∃ b : Bool,
      voice_field j "factoryNotifications" = some (.jbool b) ∧
      voice_field j "phaseAnnouncements" = some (.jbool b) ∧
      voice_field j "progressUpdates" = some (.jbool b) ∧
      voice_field j "completionCelebration" = some (.jbool b) ∧
      voice_field j "personalizedMessages" = some (.jbool b) ∧
      voice_field j "nameUsageRate" = some (.jnum (if b then 7/10 else 0)) := by
  obtain ⟨b, fields, -, rfl⟩ := run_saved_shape h
  have hv := alookup_assocSet_self fields "voice" (voice_settings b)
  refine ⟨b, ?_, ?_, ?_, ?_, ?_, ?_⟩ <;>
    · simp only [voice_field]
      rw [hv]
      rfl

/-- Claim C8, witness: the invariant of the configuration saved by a concrete
enable run on an empty config object. -/
theorem c8_voice_invariant_witness :
    ∃ b : Bool,
      voice_field (.jobj [("voice", voice_settings true)]) "factoryNotifications" =
        some (.jbool b) ∧
      voice_field (.jobj [("voice", voice_settings true)]) "phaseAnnouncements" =
        some (.jbool b) ∧
      voice_field (.jobj [("voice", voice_settings true)]) "progressUpdates" =
        some (.jbool b) ∧
      voice_field (.jobj [("voice", voice_settings true)]) "completionCelebration" =
        some (.jbool b) ∧
      voice_field (.jobj [("voice", voice_settings true)]) "personalizedMessages" =
        some (.jbool b) ∧
      voice_field (.jobj [("voice", voice_settings true)]) "nameUsageRate" =
        some (.jnum (if b then 7/10 else 0)) :=
  c8_voice_invariant .enable (.parsed (.jobj [])) true (.jobj [("voice", voice_settings true)]) rfl

/-- Claim C10: a run of the voice-control utility that saves a configuration
replaces the voice key wholesale with the fixed settings object and preserves
every other top-level key of the loaded configuration unchanged. -/
theorem c10_frame_preservation (mode : VCMode) (fields : List (String × JValue)) (saveOk : Bool) (j : JValue)
    (h : (run_voice_control mode (.parsed (.jobj fields)) saveOk).saved = some j) :
    ∃ fields2, j = .jobj fields2 ∧
      (∃ b : Bool, alookup fields2 "voice" = some (voice_settings b)) ∧
      (∀ k, k ≠ "voice" → alookup fields2 k = alookup fields k) := by
  obtain ⟨b, fields0, hc, rfl⟩ := run_saved_shape h
  simp only [ConfigFile.parsed.injEq, JValue.jobj.injEq] at hc
  subst hc
  refine ⟨assocSet fields "voice" (voice_settings b), rfl,
    ⟨b, alookup_assocSet_self fields "voice" (voice_settings b)⟩, ?_⟩
  intro k hk
  exact alookup_assocSet_ne fields "voice" k (voice_settings b) hk

/-- Claim C10, witness: a concrete disable run on a config with one other
top-level key. -/
theorem c10_frame_preservation_witness :
    ∃ fields2,
      JValue.jobj [("other", JValue.jnum 1), ("voice", voice_settings false)] = .jobj fields2 ∧
      (∃ b : Bool, alookup fields2 "voice" = some (voice_settings b)) ∧
      (∀ k, k ≠ "voice" →
        alookup fields2 k = alookup [("other", JValue.jnum 1)] k) :=
  c10_frame_preservation .disable [("other", JValue.jnum 1)] true
    (.jobj [("other", JValue.jnum 1), ("voice", voice_settings false)]) rfl

/-- Claim C9, counterexample: a parsed config that binds
voice.factoryNotifications to the JSON number 0 makes `is_voice_enabled`
return false, although the configured value is not the JSON literal false:
the hook tests Python truthiness, not equality with false. -/
theorem c9_voice_enabled_counterexample :
    is_voice_enabled
      (.parsed (.jobj [("voice", .jobj [("factoryNotifications", .jnum 0)])])) = false ∧
    JValue.jnum 0 ≠ JValue.jbool false :=
  ⟨by decide, fun hx => JValue.noConfusion hx⟩

/-- Claim C9, amended: `is_voice_enabled` is total and defaults to enabled
when the file is missing, unreadable, or malformed, and when the parsed
object lacks the voice object or the factoryNotifications key; the result is
disabled exactly when the parsed config is an object whose voice member is an
object binding factoryNotifications to a Python-falsy JSON value (false,
null, 0, empty string, empty array, or empty object). -/
theorem c9_voice_enabled_amended :
    is_voice_enabled .missing = true ∧
    is_voice_enabled .unreadable = true ∧
    is_voice_enabled .malformed = true ∧
    (∀ fields, alookup fields "voice" = none →
      is_voice_enabled (.parsed (.jobj fields)) = true) ∧
    (∀ fields vf, alookup fields "voice" = some (.jobj vf) →
      alookup vf "factoryNotifications" = none →
      is_voice_enabled (.parsed (.jobj fields)) = true) ∧
    (∀ j, is_voice_enabled (.parsed j) = false ↔
      ∃ fields vf v, j = .jobj fields ∧ alookup fields "voice" = some (.jobj vf) ∧
        alookup vf "factoryNotifications" = some v ∧ jtruthy v = false) := by
  refine ⟨rfl, rfl, rfl, ?_, ?_, ?_⟩
  · intro fields hv
    simp [is_voice_enabled, hv]
  · intro fields vf hv hf
    simp [is_voice_enabled, hv, hf]
  · intro j
    constructor
    · intro h
      cases j with
      | jobj fields =>
        cases hv : alookup fields "voice" with
        | none => simp [is_voice_enabled, hv] at h
        | some v =>
          cases v with
          | jobj vf =>
            cases hf : alookup vf "factoryNotifications" with
            | none => simp [is_voice_enabled, hv, hf] at h
            | some val =>
              simp only [is_voice_enabled, hv, hf] at h
              exact ⟨fields, vf, val, rfl, hv, hf, h⟩
          | jnull => simp [is_voice_enabled, hv] at h
          | jbool b2 => simp [is_voice_enabled, hv] at h
          | jnum q => simp [is_voice_enabled, hv] at h
          | jstr s => simp [is_voice_enabled, hv] at h
          | jarr es => simp [is_voice_enabled, hv] at h
      | jnull => simp [is_voice_enabled] at h
      | jbool b2 => simp [is_voice_enabled] at h
      | jnum q => simp [is_voice_enabled] at h
      | jstr s => simp [is_voice_enabled] at h
      | jarr es => simp [is_voice_enabled] at h
    · rintro ⟨fields, vf, v, rfl, hv, hf, hval⟩
      simp only [is_voice_enabled, hv, hf]
      exact hval

/-- Claim C9, witness: the amended characterization applied to a config
binding factoryNotifications to null. -/
theorem c9_voice_enabled_witness :
    is_voice_enabled
      (.parsed (.jobj [("voice", .jobj [("factoryNotifications", .jnull)])])) = false :=
  (c9_voice_enabled_amended.2.2.2.2.2 _).mpr ⟨_, _, _, rfl, rfl, rfl, rfl⟩

end EchoContextFactory
